import Mathlib

/-!
Shallow embedding of the rule-based trading signal generator in
`src/t0code.py` (class `TradingSystem`), together with theorems checking
the natural-language specification against it.

Modelling conventions:
* Prices are exact rationals (`ℚ`); pandas/numpy float values that can be
  NaN (missing indicator cells) are modelled as `Option ℚ` with `none`
  standing for NaN/missing.  Comparisons against NaN are `false`, exactly
  as in pandas, via `oLT`/`oGT`.
* The only statements in the translated code that can raise with the data
  shapes produced by the pipeline are `stock_data.iloc[-1]` on an empty
  frame (IndexError) and `latest['close'] - self.last_trade_price` with
  `last_trade_price = None` (TypeError); fallible code therefore returns
  `Except PyError _`.  numpy float64 division by zero does not raise: it
  yields ±inf / NaN, and the branch conditions are modelled under those
  IEEE results where relevant.
* Wall-clock timestamps (`datetime.now()`) are environment inputs and are
  passed in as an explicit parameter of the trade log append.
-/

namespace T0

/-- The `action` field of a decision dict: `'buy' | 'sell' | 'hold'`. -/
inductive Action
  | buy
  | sell
  | hold
deriving DecidableEq, Repr

/-- The `reason` strings of the LONG-state decisions:
`'止盈/超买'` (take-profit/overbought), `'止损'` (stop-loss),
`'持仓观望'` (hold position). -/
inductive Reason
  | takeProfitOverbought
  | stopLossReason
  | holdPosition
deriving DecidableEq, Repr

/-- A decision dict returned by `generate_daily_signal`.  Keys that a given
branch does not set are `none`. -/
structure Decision where
  action : Action
  price : ℚ
  stop_loss : Option ℚ := none
  target : Option ℚ := none
  reason : Option Reason := none
deriving DecidableEq, Repr

/-- One daily OHLC bar (the columns of the data frame that
`calculate_indicators` reads: `high`, `low`, `close`). -/
structure Bar where
  high : ℚ
  low : ℚ
  close : ℚ
deriving DecidableEq, Repr

/-- A row of the data frame after `calculate_indicators`: the bar plus the
derived columns.  `none` models a NaN cell (window not yet filled, or the
NaN produced by the RSI 0/0 ratio). -/
structure IndicatorRow where
  close : ℚ
  high : ℚ
  low : ℚ
  MA5 : Option ℚ
  MA20 : Option ℚ
  MA60 : Option ℚ
  ATR : Option ℚ
  RSI : Option ℚ
  Pivot : Option ℚ
  S1 : Option ℚ
  R1 : Option ℚ
deriving DecidableEq, Repr

/-- pandas `<` where either side may be NaN (`none`): any comparison
involving NaN is `False`. -/
def oLT : Option ℚ → Option ℚ → Bool
  | some a, some b => decide (a < b)
  | _, _ => false

/-- pandas `>` with NaN semantics, written in terms of `oLT`. -/
def oGT (a b : Option ℚ) : Bool := oLT b a

@[simp] lemma oLT_none_left (b : Option ℚ) : oLT none b = false := rfl

@[simp] lemma oLT_none_right (a : Option ℚ) : oLT a none = false := by
  cases a <;> rfl

@[simp] lemma oLT_some_some (x y : ℚ) : oLT (some x) (some y) = decide (x < y) := rfl

/-- Floor of a rational, computed directly on the normalized fraction. -/
def qfloor (x : ℚ) : ℤ := x.num.fdiv x.den

/-- Round half to even to the nearest integer, as Python `round` does on
exact values. -/
def pyRoundInt (x : ℚ) : ℤ :=
  let f := qfloor x
  if x - f < 1 / 2 then f
  else if (1 : ℚ) / 2 < x - f then f + 1
  else if f % 2 = 0 then f else f + 1

/-- Python `round(x, 2)` on exact decimal values. -/
def round2 (x : ℚ) : ℚ := (pyRoundInt (100 * x) : ℚ) / 100

/-- Python `min(a, b)` where `b` may be NaN (`none`): the builtin returns
`b` exactly when `b < a`, so a NaN second argument leaves `a`. -/
def pyMin (a : ℚ) : Option ℚ → ℚ
  | none => a
  | some b => if b < a then b else a

lemma pyMin_some (a b : ℚ) : pyMin a (some b) = min a b := by
  show (if b < a then b else a) = min a b
  rcases le_or_lt a b with h | h
  · rw [if_neg (not_lt.mpr h), min_eq_left h]
  · rw [if_pos h, min_eq_right h.le]

/-- `df['close'].rolling(k).mean()` at row `i`: the arithmetic mean of the
`k` closes ending at `i`, NaN (`none`) while fewer than `k` rows exist. -/
def maAt (closes : List ℚ) (k i : ℕ) : Option ℚ :=
  if k ≤ i + 1 then some ((((closes.drop (i + 1 - k)).take k).sum) / (k : ℚ)) else none

/-- Maximum of a window (`rolling(..).max()` over a nonempty slice). -/
def winMax : List ℚ → Option ℚ
  | [] => none
  | h :: t => some (t.foldl max h)

/-- Minimum of a window (`rolling(..).min()` over a nonempty slice). -/
def winMin : List ℚ → Option ℚ
  | [] => none
  | h :: t => some (t.foldl min h)

/-- `df['ATR'] = df['high'].rolling(14).max() - df['low'].rolling(14).min()`
at row `i`. -/
def atrAt (highs lows : List ℚ) (i : ℕ) : Option ℚ :=
  if 14 ≤ i + 1 then
    match winMax ((highs.drop (i + 1 - 14)).take 14), winMin ((lows.drop (i + 1 - 14)).take 14) with
    | some mx, some mn => some (mx - mn)
    | _, _ => none
  else none

/-- `gain = delta.where(delta > 0, 0)` at row `j`; row 0 has NaN delta and
`where` replaces it by 0 (NaN > 0 is False). -/
def gainAt (closes : List ℚ) (j : ℕ) : ℚ :=
  if j = 0 then 0 else max (closes.getD j 0 - closes.getD (j - 1) 0) 0

/-- `loss = -delta.where(delta < 0, 0)` at row `j`. -/
def lossAt (closes : List ℚ) (j : ℕ) : ℚ :=
  if j = 0 then 0 else max (closes.getD (j - 1) 0 - closes.getD j 0) 0

/-- Weighted sum `Σ_{j ≤ i} (13/14)^(i-j) · f j`: the numerator of the
pandas `ewm(alpha=1/14).mean()` (default `adjust=True`); the common
normalizing denominator cancels in the gain/loss ratio below. -/
def ewmNum (f : ℕ → ℚ) (i : ℕ) : ℚ :=
  ((List.range (i + 1)).map (fun j => ((13 : ℚ) / 14) ^ (i - j) * f j)).sum

/-- `df['RSI'] = 100 - 100/(1 + gain_ewm/loss_ewm)` at row `i`, under
numpy float semantics: a zero smoothed loss with positive smoothed gain
gives ratio +inf and hence RSI = 100; a 0/0 ratio (row 0, or a constant
prefix) gives NaN, which propagates — modelled as `none`. -/
def rsiAt (closes : List ℚ) (i : ℕ) : Option ℚ :=
  let G := ewmNum (gainAt closes) i
  let L := ewmNum (lossAt closes) i
  if L = 0 then (if G = 0 then none else some 100)
  else some (100 - 100 / (1 + G / L))

/-- The row of the enriched data frame at index `i` (`calculate_indicators`,
lines 40–61 of the source). -/
def indicatorRowAt (bars : List Bar) (i : ℕ) : IndicatorRow :=
  let closes := bars.map Bar.close
  let b := bars.getD i ⟨0, 0, 0⟩
  let pivot := (b.high + b.low + b.close) / 3
  { close := b.close
    high := b.high
    low := b.low
    MA5 := maAt closes 5 i
    MA20 := maAt closes 20 i
    MA60 := maAt closes 60 i
    ATR := atrAt (bars.map Bar.high) (bars.map Bar.low) i
    RSI := rsiAt closes i
    Pivot := some pivot
    S1 := some (2 * pivot - b.high)
    R1 := some (2 * pivot - b.low) }

/-- `calculate_indicators`: the same-length sequence of enriched rows. -/
def calculate_indicators (bars : List Bar) : List IndicatorRow :=
  (List.range bars.length).map (indicatorRowAt bars)

/-- `trend_up = latest['MA5'] > latest['MA20'] > latest['MA60']` (a chained
pandas comparison: both strict, each False if a side is NaN). -/
def trend_up (row : IndicatorRow) : Bool :=
  oGT row.MA5 row.MA20 && oGT row.MA20 row.MA60

/-- The exceptions the translated code can actually raise:
`indexError` for `iloc[-1]` on an empty frame, `typeErrorNoneLastPrice`
for `close - None` in the LONG branch. -/
inductive PyError
  | indexError
  | typeErrorNoneLastPrice
deriving DecidableEq, Repr

instance {ε α : Type} [DecidableEq ε] [DecidableEq α] : DecidableEq (Except ε α) :=
  fun a b =>
    match a, b with
    | .error e, .error f =>
        if h : e = f then isTrue (congrArg Except.error h)
        else isFalse fun hh => h (Except.error.inj hh)
    | .ok x, .ok y =>
        if h : x = y then isTrue (congrArg Except.ok h)
        else isFalse fun hh => h (Except.ok.inj hh)
    | .error _, .ok _ => isFalse fun hh => Except.noConfusion hh
    | .ok _, .error _ => isFalse fun hh => Except.noConfusion hh

/-- `generate_daily_signal` (lines 63–112), as a function of the latest
indicator row and the tracker state it reads (`self.position`,
`self.last_trade_price`).  The unused locals `prev`, `trend_down` and
`atr_factor` have no observable effect (numpy division never raises) and
are omitted.  In the LONG branch with `last_trade_price = 0`, numpy
division gives `current_return = ±inf` (or NaN when `close = 0` too) and
the conditions are evaluated under those IEEE values. -/
def generate_daily_signal (latest : IndicatorRow) (position : ℕ)
    (last_trade_price : Option ℚ) : Except PyError Decision :=
  if position = 0 then
    if trend_up latest && oLT latest.RSI (some 70) then
      let entry_price := pyMin (latest.close * (995 / 1000)) latest.S1
      .ok { action := .buy
            price := round2 entry_price
            stop_loss := latest.ATR.map (fun atr => round2 (entry_price - 2 * atr))
            target := latest.ATR.map (fun atr => round2 (entry_price + 3 * atr)) }
    else
      .ok { action := if trend_up latest then .buy else .sell
            price := latest.close
            stop_loss := some (latest.close * (98 / 100))
            target := some (latest.close * (103 / 100)) }
  else
    match last_trade_price with
    | none => .error .typeErrorNoneLastPrice
    | some ltp =>
      if ltp = 0 then
        if 0 < latest.close then
          .ok { action := .sell, price := latest.close * (1005 / 1000),
                reason := some .takeProfitOverbought }
        else if oGT latest.RSI (some 70) then
          .ok { action := .sell, price := latest.close * (1005 / 1000),
                reason := some .takeProfitOverbought }
        else if latest.close < 0 then
          .ok { action := .sell, price := latest.close * (995 / 1000),
                reason := some .stopLossReason }
        else
          .ok { action := .hold, price := latest.close, reason := some .holdPosition }
      else
        let current_return := (latest.close - ltp) / ltp
        if 3 / 100 < current_return ∨ oGT latest.RSI (some 70) = true then
          .ok { action := .sell, price := latest.close * (1005 / 1000),
                reason := some .takeProfitOverbought }
        else if current_return < -(2 / 100) then
          .ok { action := .sell, price := latest.close * (995 / 1000),
                reason := some .stopLossReason }
        else
          .ok { action := .hold, price := latest.close, reason := some .holdPosition }

/-- One entry of `self.trade_log`; `tstamp` stands for `datetime.now()`,
passed in by the caller. -/
structure TradeLogEntry where
  tstamp : ℕ
  action : Action
  price : ℚ
  position : ℕ
deriving DecidableEq, Repr

/-- The mutable fields of `TradingSystem` (`__init__`, lines 7–10). -/
structure TradingSystemState where
  position : ℕ
  last_trade_price : Option ℚ
  trade_log : List TradeLogEntry
deriving DecidableEq, Repr

/-- The state set up by `__init__`: flat, no last trade price, empty log. -/
def initState : TradingSystemState :=
  { position := 0, last_trade_price := none, trade_log := [] }

/-- `execute_trade` (lines 114–130): append a log entry recording the
pre-mutation position, then update the position fields by action. -/
def execute_trade (s : TradingSystemState) (signal : Decision) (now : ℕ) :
    TradingSystemState :=
  let logged : TradingSystemState :=
    { s with trade_log := s.trade_log ++
        [{ tstamp := now, action := signal.action, price := signal.price,
           position := s.position }] }
  match signal.action with
  | .buy => { logged with position := 1, last_trade_price := some signal.price }
  | .sell => { logged with position := 0, last_trade_price := none }
  | .hold => logged

/-- The post-fetch core of `run_daily_strategy` (lines 138–143): compute
indicators, take `iloc[-1]` (IndexError when empty), generate the signal,
apply it.  Data fetch and console reporting are external collaborators and
out of scope. -/
def run_daily_strategy_core (bars : List Bar) (s : TradingSystemState) (now : ℕ) :
    Except PyError (Decision × TradingSystemState) :=
  match (calculate_indicators bars).getLast? with
  | none => .error .indexError
  | some latest =>
    match generate_daily_signal latest s.position s.last_trade_price with
    | .error e => .error e
    | .ok sig => .ok (sig, execute_trade s sig now)

/-- `true` exactly when the computation returned normally. -/
def isOkE {ε α : Type} : Except ε α → Bool
  | .ok _ => true
  | .error _ => false

/-- The returned decision, `none` when an exception was raised. -/
def okOf {ε α : Type} : Except ε α → Option α
  | .ok d => some d
  | .error _ => none

/-- States reachable from `__init__` by applying emitted decisions. -/
inductive Reachable : TradingSystemState → Prop
  | init : Reachable initState
  | step (s : TradingSystemState) (d : Decision) (now : ℕ) :
      Reachable s → Reachable (execute_trade s d now)

/-- The spec's PositionState invariant, on the tracker state. -/
def posInvariant (s : TradingSystemState) : Prop :=
  s.last_trade_price.isSome = true ↔ s.position = 1

/-! ### Branch lemmas for `generate_daily_signal` -/

lemma gen_flat_primary (row : IndicatorRow) (ltp : Option ℚ)
    (h1 : trend_up row = true) (h2 : oLT row.RSI (some 70) = true) :
    generate_daily_signal row 0 ltp = .ok
      { action := .buy
        price := round2 (pyMin (row.close * (995 / 1000)) row.S1)
        stop_loss := row.ATR.map
          (fun atr => round2 (pyMin (row.close * (995 / 1000)) row.S1 - 2 * atr))
        target := row.ATR.map
          (fun atr => round2 (pyMin (row.close * (995 / 1000)) row.S1 + 3 * atr))
        reason := none } := by
  simp [generate_daily_signal, h1, h2]

lemma gen_flat_else (row : IndicatorRow) (ltp : Option ℚ)
    (h : (trend_up row && oLT row.RSI (some 70)) = false) :
    generate_daily_signal row 0 ltp = .ok
      { action := if trend_up row then .buy else .sell
        price := row.close
        stop_loss := some (row.close * (98 / 100))
        target := some (row.close * (103 / 100))
        reason := none } := by
  simp [generate_daily_signal, h]

lemma gen_flat_ok (row : IndicatorRow) (ltp : Option ℚ) :
    ∃ d, generate_daily_signal row 0 ltp = .ok d := by
  unfold generate_daily_signal
  rw [if_pos rfl]
  split
  · exact ⟨_, rfl⟩
  · exact ⟨_, rfl⟩

lemma gen_long_tp (row : IndicatorRow) (p : ℕ) (l : ℚ) (hp : p ≠ 0) (hl : l ≠ 0)
    (hc : 3 / 100 < (row.close - l) / l ∨ oGT row.RSI (some 70) = true) :
    generate_daily_signal row p (some l) = .ok
      { action := .sell, price := row.close * (1005 / 1000)
        stop_loss := none, target := none
        reason := some .takeProfitOverbought } := by
  simp [generate_daily_signal, hp, hl, hc]

lemma gen_long_sl (row : IndicatorRow) (p : ℕ) (l : ℚ) (hp : p ≠ 0) (hl : l ≠ 0)
    (hc1 : ¬(3 / 100 < (row.close - l) / l ∨ oGT row.RSI (some 70) = true))
    (hc2 : (row.close - l) / l < -(2 / 100)) :
    generate_daily_signal row p (some l) = .ok
      { action := .sell, price := row.close * (995 / 1000)
        stop_loss := none, target := none
        reason := some .stopLossReason } := by
  simp only [generate_daily_signal, if_neg hp, if_neg hl]
  rw [if_neg hc1, if_pos hc2]

lemma gen_long_hold (row : IndicatorRow) (p : ℕ) (l : ℚ) (hp : p ≠ 0) (hl : l ≠ 0)
    (hc1 : ¬(3 / 100 < (row.close - l) / l ∨ oGT row.RSI (some 70) = true))
    (hc2 : ¬((row.close - l) / l < -(2 / 100))) :
    generate_daily_signal row p (some l) = .ok
      { action := .hold, price := row.close
        stop_loss := none, target := none
        reason := some .holdPosition } := by
  simp only [generate_daily_signal, if_neg hp, if_neg hl]
  rw [if_neg hc1, if_neg hc2]

lemma gen_long_some_ok (row : IndicatorRow) (p : ℕ) (l : ℚ) (hp : p ≠ 0) :
    ∃ d, generate_daily_signal row p (some l) = .ok d := by
  by_cases h0 : l = 0
  · subst h0
    simp only [generate_daily_signal, if_neg hp]
    rw [if_pos trivial]
    by_cases hc : 0 < row.close
    · rw [if_pos hc]; exact ⟨_, rfl⟩
    · rw [if_neg hc]
      by_cases hr : oGT row.RSI (some 70) = true
      · rw [if_pos hr]; exact ⟨_, rfl⟩
      · rw [if_neg hr]
        by_cases hn : row.close < 0
        · rw [if_pos hn]; exact ⟨_, rfl⟩
        · rw [if_neg hn]; exact ⟨_, rfl⟩
  · by_cases hc : 3 / 100 < (row.close - l) / l ∨ oGT row.RSI (some 70) = true
    · exact ⟨_, gen_long_tp row p l hp h0 hc⟩
    · by_cases hc2 : (row.close - l) / l < -(2 / 100)
      · exact ⟨_, gen_long_sl row p l hp h0 hc hc2⟩
      · exact ⟨_, gen_long_hold row p l hp h0 hc hc2⟩

/-! ### State-transition lemmas for `execute_trade` -/

lemma exec_buy_state (s : TradingSystemState) (d : Decision) (now : ℕ)
    (h : d.action = .buy) :
    (execute_trade s d now).position = 1 ∧
    (execute_trade s d now).last_trade_price = some d.price := by
  unfold execute_trade
  rw [h]
  exact ⟨rfl, rfl⟩

lemma exec_sell_state (s : TradingSystemState) (d : Decision) (now : ℕ)
    (h : d.action = .sell) :
    (execute_trade s d now).position = 0 ∧
    (execute_trade s d now).last_trade_price = none := by
  unfold execute_trade
  rw [h]
  exact ⟨rfl, rfl⟩

lemma exec_hold_state (s : TradingSystemState) (d : Decision) (now : ℕ)
    (h : d.action = .hold) :
    (execute_trade s d now).position = s.position ∧
    (execute_trade s d now).last_trade_price = s.last_trade_price := by
  unfold execute_trade
  rw [h]
  exact ⟨rfl, rfl⟩

lemma exec_preserves_posInvariant (s : TradingSystemState) (d : Decision) (now : ℕ)
    (hs : posInvariant s) : posInvariant (execute_trade s d now) := by
  unfold execute_trade
  cases hA : d.action
  · simp [posInvariant]
  · simp [posInvariant]
  · simpa [posInvariant] using hs

lemma foldl_hold_state (l : List (Decision × ℕ)) :
    ∀ s : TradingSystemState, (∀ p ∈ l, (Prod.fst p).action = Action.hold) →
      (l.foldl (fun st p => execute_trade st p.1 p.2) s).position = s.position ∧
      (l.foldl (fun st p => execute_trade st p.1 p.2) s).last_trade_price =
        s.last_trade_price := by
  induction l with
  | nil => exact fun s _ => ⟨rfl, rfl⟩
  | cons p ps ih =>
    intro s hl
    have hstep := exec_hold_state s p.1 p.2 (hl p (List.mem_cons_self p ps))
    have hrest := ih (execute_trade s p.1 p.2)
      (fun q hq => hl q (List.mem_cons_of_mem p hq))
    constructor
    · rw [List.foldl_cons, hrest.1, hstep.1]
    · rw [List.foldl_cons, hrest.2, hstep.2]

/-! ### Average comparisons for strictly increasing close sequences -/

lemma list_sum_lt_length_mul (l : List ℚ) (c : ℚ) (hne : l ≠ []) (h : ∀ x ∈ l, x < c) :
    l.sum < (l.length : ℚ) * c := by
  induction l with
  | nil => exact absurd rfl hne
  | cons x xs ih =>
    rcases eq_or_ne xs [] with h0 | h0
    · subst h0
      simpa using h x (List.mem_cons_self x [])
    · have hx := h x (List.mem_cons_self x xs)
      have hxs := ih h0 (fun y hy => h y (List.mem_cons_of_mem x hy))
      simp only [List.sum_cons, List.length_cons]
      push_cast
      have hr : ((xs.length : ℚ) + 1) * c = (xs.length : ℚ) * c + c := by ring
      rw [hr]
      linarith

lemma list_length_mul_lt_sum (l : List ℚ) (c : ℚ) (hne : l ≠ []) (h : ∀ x ∈ l, c < x) :
    (l.length : ℚ) * c < l.sum := by
  induction l with
  | nil => exact absurd rfl hne
  | cons x xs ih =>
    rcases eq_or_ne xs [] with h0 | h0
    · subst h0
      simpa using h x (List.mem_cons_self x [])
    · have hx := h x (List.mem_cons_self x xs)
      have hxs := ih h0 (fun y hy => h y (List.mem_cons_of_mem x hy))
      simp only [List.sum_cons, List.length_cons]
      push_cast
      have hr : ((xs.length : ℚ) + 1) * c = (xs.length : ℚ) * c + c := by ring
      rw [hr]
      linarith

/-- If every element of `a` is below every element of `b`, the mean of the
suffix `b` strictly exceeds the mean of `a ++ b`. -/
lemma avg_append_lt (a b : List ℚ) (ha : a ≠ []) (hb : b ≠ [])
    (hab : ∀ x ∈ a, ∀ y ∈ b, x < y) :
    (a ++ b).sum / ((a ++ b).length : ℚ) < b.sum / (b.length : ℚ) := by
  have hna : 0 < (a.length : ℚ) := by exact_mod_cast List.length_pos.mpr ha
  have hnb : 0 < (b.length : ℚ) := by exact_mod_cast List.length_pos.mpr hb
  have h1 : ∀ y ∈ b, a.sum / (a.length : ℚ) < y := by
    intro y hy
    rw [div_lt_iff₀ hna]
    have := list_sum_lt_length_mul a y ha (fun x hx => hab x hx y hy)
    linarith
  have h2 := list_length_mul_lt_sum b (a.sum / (a.length : ℚ)) hb h1
  have h2' : (b.length : ℚ) * a.sum / (a.length : ℚ) < b.sum := by
    rw [mul_div_assoc]
    exact h2
  have key := (div_lt_iff₀ hna).mp h2'
  rw [List.sum_append, List.length_append]
  push_cast
  rw [div_lt_div_iff₀ (by linarith) hnb]
  nlinarith [key]

/-- `maAt` at the last row of a long-enough list is the mean of the last
`k` closes. -/
lemma maAt_last (closes : List ℚ) (k : ℕ) (hk0 : 0 < k) (hk : k ≤ closes.length) :
    maAt closes k (closes.length - 1) =
      some ((closes.drop (closes.length - k)).sum / (k : ℚ)) := by
  have h1 : 1 ≤ closes.length := le_trans hk0 hk
  unfold maAt
  rw [if_pos (by omega : k ≤ closes.length - 1 + 1)]
  have e1 : closes.length - 1 + 1 - k = closes.length - k := by omega
  rw [e1]
  have e2 : (closes.drop (closes.length - k)).length = k := by
    rw [List.length_drop]
    omega
  rw [List.take_of_length_le (le_of_eq e2)]

/-- On a strictly increasing list, the mean of the last `j` elements is
strictly above the mean of the last `k` elements when `j < k`. -/
lemma drop_avg_lt (closes : List ℚ) (j k : ℕ) (hmono : closes.Pairwise (· < ·))
    (hj : 0 < j) (hjk : j < k) (hk : k ≤ closes.length) :
    (closes.drop (closes.length - k)).sum / (k : ℚ) <
      (closes.drop (closes.length - j)).sum / (j : ℚ) := by
  have hd2 : closes.drop (closes.length - j) =
      (closes.drop (closes.length - k)).drop (k - j) := by
    rw [List.drop_drop]
    congr 1
    omega
  have hsplit : (closes.drop (closes.length - k)).take (k - j) ++
      closes.drop (closes.length - j) = closes.drop (closes.length - k) := by
    rw [hd2, List.take_append_drop]
  have hlen_dk : (closes.drop (closes.length - k)).length = k := by
    rw [List.length_drop]
    omega
  have hlen_a : ((closes.drop (closes.length - k)).take (k - j)).length = k - j := by
    rw [List.length_take, hlen_dk]
    omega
  have hlen_b : (closes.drop (closes.length - j)).length = j := by
    rw [List.length_drop]
    omega
  have ha : (closes.drop (closes.length - k)).take (k - j) ≠ [] := by
    intro h0
    rw [h0] at hlen_a
    simp at hlen_a
    omega
  have hb : closes.drop (closes.length - j) ≠ [] := by
    intro h0
    rw [h0] at hlen_b
    simp at hlen_b
    omega
  have hpair : ((closes.drop (closes.length - k)).take (k - j) ++
      closes.drop (closes.length - j)).Pairwise (· < ·) := by
    rw [hsplit]
    exact hmono.sublist (List.drop_sublist _ _)
  have hab := (List.pairwise_append.mp hpair).2.2
  have hmain := avg_append_lt _ _ ha hb hab
  rw [hsplit] at hmain
  rw [hlen_dk, hlen_b] at hmain
  exact hmain

/-! ### Projections of `indicatorRowAt` -/

lemma row_MA5 (bars : List Bar) (i : ℕ) :
    (indicatorRowAt bars i).MA5 = maAt (bars.map Bar.close) 5 i := rfl

lemma row_MA20 (bars : List Bar) (i : ℕ) :
    (indicatorRowAt bars i).MA20 = maAt (bars.map Bar.close) 20 i := rfl

lemma row_MA60 (bars : List Bar) (i : ℕ) :
    (indicatorRowAt bars i).MA60 = maAt (bars.map Bar.close) 60 i := rfl

lemma row_ATR (bars : List Bar) (i : ℕ) :
    (indicatorRowAt bars i).ATR = atrAt (bars.map Bar.high) (bars.map Bar.low) i := rfl

/-- `iloc[-1]` of the enriched frame: the last computed indicator row. -/
lemma calc_getLast? (bars : List Bar) (h : bars ≠ []) :
    (calculate_indicators bars).getLast? =
      some (indicatorRowAt bars (bars.length - 1)) := by
  obtain ⟨m, hm⟩ : ∃ m, bars.length = m + 1 := by
    cases hl : bars.length with
    | zero => exact absurd (List.length_eq_zero.mp hl) h
    | succ m => exact ⟨m, rfl⟩
  unfold calculate_indicators
  rw [hm, List.range_succ, List.map_append]
  simp

/-! ### Concrete inputs used by counterexamples and witnesses -/

/-- FLAT row whose primary-BUY entry price 1.01·0.995 = 1.00495 is not
representable at 2 decimals, exposing the rounding in the code. -/
def c1Row : IndicatorRow :=
  { close := 101 / 100, high := 2, low := 1, MA5 := some 3, MA20 := some 2,
    MA60 := some 1, ATR := some (1 / 2), RSI := some 50, Pivot := some 0,
    S1 := some 2, R1 := some 0 }

/-- The spec's FLAT scenario row: close 10, MA5 10.5 > MA20 10 > MA60 9.5,
RSI 50, ATR 0.5, S1 9.8. -/
def c1ScenarioRow : IndicatorRow :=
  { close := 10, high := 10, low := 9, MA5 := some (21 / 2), MA20 := some 10,
    MA60 := some (19 / 2), ATR := some (1 / 2), RSI := some 50,
    Pivot := some (29 / 3), S1 := some (49 / 5), R1 := some 0 }

/-- LONG scenario row: close 10.35, RSI 60. -/
def c2Row : IndicatorRow :=
  { close := 207 / 20, high := 11, low := 10, MA5 := some 10, MA20 := some 10,
    MA60 := some 10, ATR := some 1, RSI := some 60, Pivot := some 10,
    S1 := some 10, R1 := some 10 }

/-- FLAT row with every rolling-window indicator missing. -/
def c4Row : IndicatorRow :=
  { close := 10, high := 11, low := 9, MA5 := none, MA20 := none, MA60 := none,
    ATR := none, RSI := none, Pivot := some 10, S1 := some (19 / 2),
    R1 := some (21 / 2) }

/-- FLAT row that is not trending up (used to exercise the advisory branch). -/
def c9Row : IndicatorRow :=
  { close := 10, high := 11, low := 9, MA5 := some 1, MA20 := some 2,
    MA60 := some 3, ATR := some 1, RSI := some 50, Pivot := some 10,
    S1 := some (19 / 2), R1 := some (21 / 2) }

/-- FLAT row with only RSI missing but a valid up-trend in the MAs. -/
def c10Row : IndicatorRow :=
  { close := 10, high := 11, low := 9, MA5 := some (21 / 2), MA20 := some 10,
    MA60 := some (19 / 2), ATR := some 1, RSI := none, Pivot := some 10,
    S1 := some (49 / 5), R1 := some (21 / 2) }

/-- FLAT row with MA5 missing. -/
def c10wRow : IndicatorRow :=
  { close := 10, high := 11, low := 9, MA5 := none, MA20 := some 1,
    MA60 := some 1, ATR := some 1, RSI := some 50, Pivot := some 10,
    S1 := some (49 / 5), R1 := some (21 / 2) }

/-- 60 bars with strictly increasing closes 1, 2, …, 60. -/
def c5Bars : List Bar :=
  (List.range 60).map (fun i => { high := (i : ℚ) + 1, low := i, close := (i : ℚ) + 1 })

/-- Three bars only: shorter than every rolling window except none. -/
def c8Bars : List Bar := [⟨11, 9, 10⟩, ⟨12, 10, 11⟩, ⟨13, 11, 12⟩]

/-- Concrete buy/sell/hold decisions for the tracker round-trip. -/
def dBuy : Decision := { action := .buy, price := 10 }

def dSell : Decision := { action := .sell, price := 11 }

def dHold : Decision := { action := .hold, price := 12 }

/-! ### Claim theorems -/

/-- C1 (counterexample): at a FLAT row with close = 1.01, MA5 = 3 > MA20 = 2 >
MA60 = 1, RSI = 50 < 70, ATR = 0.5, S1 = 2, the code emits BUY at the rounded
price 1.00, whereas the claim's formula min(close·0.995, S1) = 1.00495; so the
claim's unrounded price formula is false of the code. -/
theorem c1_counterexample :
    (okOf (generate_daily_signal c1Row 0 none)).map Decision.price = some 1 ∧
    (1 : ℚ) ≠ pyMin (c1Row.close * (995 / 1000)) c1Row.S1 := by
  with_unfolding_all decide

/-- C1 (amended): with MA5, MA20, MA60, RSI, ATR, S1 all defined, position
FLAT, MA5 > MA20 > MA60 strict and RSI < 70, the generator emits BUY with
price = round(min(close·0.995, S1), 2), stop_loss = round(entry − 2·ATR, 2)
and target = round(entry + 3·ATR, 2), where entry is the unrounded
min(close·0.995, S1). -/
theorem c1_amended (row : IndicatorRow) (ltp : Option ℚ) (m5 m20 m60 rsi atr s1 : ℚ)
    (h5 : row.MA5 = some m5) (h20 : row.MA20 = some m20) (h60 : row.MA60 = some m60)
    (hr : row.RSI = some rsi) (ha : row.ATR = some atr) (hs : row.S1 = some s1)
    (ht1 : m20 < m5) (ht2 : m60 < m20) (hrsi : rsi < 70) :
    generate_daily_signal row 0 ltp = .ok
      { action := .buy
        price := round2 (min (row.close * (995 / 1000)) s1)
        stop_loss := some (round2 (min (row.close * (995 / 1000)) s1 - 2 * atr))
        target := some (round2 (min (row.close * (995 / 1000)) s1 + 3 * atr))
        reason := none } := by
  have h1 : trend_up row = true := by
    simp [trend_up, oGT, h5, h20, h60, ht1, ht2]
  have h2 : oLT row.RSI (some 70) = true := by
    simp [hr, hrsi]
  rw [gen_flat_primary row ltp h1 h2, hs, ha]
  simp [pyMin_some]

/-- C1 (witness): the spec scenario — close 10, MA5 10.5 > MA20 10 > MA60 9.5,
RSI 50, ATR 0.5, S1 9.8 — gives BUY at 9.80, stop 8.80, target 11.30. -/
theorem c1_amended_witness :
    (10 : ℚ) < 21 / 2 ∧ (19 / 2 : ℚ) < 10 ∧ (50 : ℚ) < 70 ∧
    generate_daily_signal c1ScenarioRow 0 none = .ok
      { action := .buy, price := 49 / 5, stop_loss := some (44 / 5),
        target := some (113 / 10), reason := none } := by
  refine ⟨by norm_num, by norm_num, by norm_num, ?_⟩
  rw [c1_amended c1ScenarioRow none (21 / 2) 10 (19 / 2) 50 (1 / 2) (49 / 5)
    rfl rfl rfl rfl rfl rfl (by norm_num) (by norm_num) (by norm_num)]
  with_unfolding_all decide

/-- C2 (counterexample): LONG with last_trade_price = 10, close = 10.35,
RSI = 60: the emitted SELL price is 10.35·1.005 = 10.40175, not 10.40 as
the claim's "in particular" asserts. -/
theorem c2_counterexample :
    (okOf (generate_daily_signal c2Row 1 (some 10))).map Decision.price =
      some (41607 / 4000) ∧
    (41607 / 4000 : ℚ) ≠ 52 / 5 := by
  have h := gen_long_tp c2Row 1 10 one_ne_zero (by norm_num)
    (Or.inl (by norm_num [c2Row]))
  rw [h]
  constructor
  · simp only [okOf, Option.map_some']
    norm_num [c2Row]
  · norm_num

/-- C2 (amended): in LONG state with a set, nonzero last_trade_price and
current_return = (close − last)/last: if current_return > 0.03 or RSI > 70,
SELL at close·1.005 with the take-profit/overbought reason; else if
current_return < −0.02, SELL at close·0.995 with the stop-loss reason; else
HOLD at close.  The scenario close = 10.35 yields 10.40175 (≈10.40), and
close = 9.75 yields 9.75·0.995. -/
theorem c2_amended (row : IndicatorRow) (l : ℚ) (hl : l ≠ 0) :
    (3 / 100 < (row.close - l) / l ∨ oGT row.RSI (some 70) = true →
      generate_daily_signal row 1 (some l) = .ok
        { action := .sell, price := row.close * (1005 / 1000)
          stop_loss := none, target := none
          reason := some .takeProfitOverbought }) ∧
    (¬(3 / 100 < (row.close - l) / l ∨ oGT row.RSI (some 70) = true) →
      (row.close - l) / l < -(2 / 100) →
      generate_daily_signal row 1 (some l) = .ok
        { action := .sell, price := row.close * (995 / 1000)
          stop_loss := none, target := none
          reason := some .stopLossReason }) ∧
    (¬(3 / 100 < (row.close - l) / l ∨ oGT row.RSI (some 70) = true) →
      ¬((row.close - l) / l < -(2 / 100)) →
      generate_daily_signal row 1 (some l) = .ok
        { action := .hold, price := row.close
          stop_loss := none, target := none
          reason := some .holdPosition }) :=
  ⟨fun hc => gen_long_tp row 1 l one_ne_zero hl hc,
   fun h1 h2 => gen_long_sl row 1 l one_ne_zero hl h1 h2,
   fun h1 h2 => gen_long_hold row 1 l one_ne_zero hl h1 h2⟩

/-- C2 (witness): last 10, close 10.35, RSI 60 — SELL at 10.40175 with the
take-profit/overbought reason. -/
theorem c2_amended_witness :
    (10 : ℚ) ≠ 0 ∧
    (3 / 100 < (c2Row.close - 10) / 10 ∨ oGT c2Row.RSI (some 70) = true) ∧
    generate_daily_signal c2Row 1 (some 10) = .ok
      { action := .sell, price := 41607 / 4000, stop_loss := none, target := none,
        reason := some .takeProfitOverbought } := by
  have hd : 3 / 100 < (c2Row.close - 10) / 10 ∨ oGT c2Row.RSI (some 70) = true :=
    Or.inl (by norm_num [c2Row])
  refine ⟨by norm_num, hd, ?_⟩
  rw [(c2_amended c2Row 10 (by norm_num)).1 hd]
  simp only [Except.ok.injEq, Decision.mk.injEq]
  norm_num [c2Row]

/-- C3 (code evaluated at the failing input): on 15 constant closes the
smoothed average gain and loss are both 0, the 0/0 ratio is NaN, and the
code's RSI is NaN (`none`) — not the RSI = 100 the spec requires for a zero
average loss. -/
theorem c3_rsi_nan_on_constant_closes :
    rsiAt (List.replicate 15 10) 14 = none ∧
    rsiAt (List.replicate 15 10) 14 ≠ some 100 := by
  with_unfolding_all decide

/-- C4 (counterexample): a FLAT row with every derived indicator missing
still produces a decision — no MissingIndicatorError is raised, refuting
"errors if and only if a required derived indicator field is missing". -/
theorem c4_counterexample :
    c4Row.MA5 = none ∧ c4Row.RSI = none ∧
    isOkE (generate_daily_signal c4Row 0 none) = true := by
  with_unfolding_all decide

/-- C4 (amended): the generator never errors because of missing indicator
fields; it returns normally exactly when the position is FLAT or
last_trade_price is set — the only exception in the code is the TypeError
from `close - None` when invoked LONG with last_trade_price absent. -/
theorem c4_amended (row : IndicatorRow) (p : ℕ) (ltp : Option ℚ) :
    isOkE (generate_daily_signal row p ltp) = true ↔ (p = 0 ∨ ltp.isSome = true) := by
  by_cases hp : p = 0
  · subst hp
    obtain ⟨d, hd⟩ := gen_flat_ok row ltp
    rw [hd]
    simp [isOkE]
  · cases ltp with
    | none =>
      have he : generate_daily_signal row p none = .error .typeErrorNoneLastPrice := by
        unfold generate_daily_signal
        rw [if_neg hp]
      rw [he]
      simp [isOkE, hp]
    | some l =>
      obtain ⟨d, hd⟩ := gen_long_some_ok row p l hp
      rw [hd]
      simp [isOkE]

/-- C4 (witness): the amended equivalence at the all-missing FLAT row. -/
theorem c4_amended_witness :
    isOkE (generate_daily_signal c4Row 0 none) = true ↔
      ((0 : ℕ) = 0 ∨ (none : Option ℚ).isSome = true) :=
  c4_amended c4Row 0 none

/-- C6: last_trade_price is set iff position = LONG (1): it holds in the
`__init__` state, is preserved by `execute_trade` for every decision, and
hence holds in every reachable tracker state. -/
theorem c6_last_trade_price_iff_long :
    posInvariant initState ∧
    (∀ (s : TradingSystemState) (d : Decision) (now : ℕ),
      posInvariant s → posInvariant (execute_trade s d now)) ∧
    (∀ s : TradingSystemState, Reachable s → posInvariant s) := by
  refine ⟨by simp [posInvariant, initState], exec_preserves_posInvariant, ?_⟩
  intro s hs
  induction hs with
  | init => simp [posInvariant, initState]
  | step s' d now _ ih => exact exec_preserves_posInvariant s' d now ih

/-- C6 (witness): the invariant instantiated at the reachable initial state. -/
theorem c6_witness : Reachable initState ∧ posInvariant initState :=
  ⟨Reachable.init, c6_last_trade_price_iff_long.2.2 initState Reachable.init⟩

/-- C7: from FLAT with last_trade_price absent, any BUY then any SELL returns
the position fields exactly to their pre-BUY values; and applying HOLD
decisions any number of times never changes the position fields (the trade
log grows, but PositionState is the {position, last_trade_price} pair). -/
theorem c7_buy_sell_roundtrip_and_hold_noop :
    (∀ (s : TradingSystemState) (d1 d2 : Decision) (t1 t2 : ℕ),
      s.position = 0 → s.last_trade_price = none →
      d1.action = .buy → d2.action = .sell →
      (execute_trade (execute_trade s d1 t1) d2 t2).position = 0 ∧
      (execute_trade (execute_trade s d1 t1) d2 t2).last_trade_price = none) ∧
    (∀ (s : TradingSystemState) (l : List (Decision × ℕ)),
      (∀ p ∈ l, (Prod.fst p).action = Action.hold) →
      (l.foldl (fun st p => execute_trade st p.1 p.2) s).position = s.position ∧
      (l.foldl (fun st p => execute_trade st p.1 p.2) s).last_trade_price =
        s.last_trade_price) :=
  ⟨fun s d1 d2 t1 t2 _ _ _ hd2 => exec_sell_state (execute_trade s d1 t1) d2 t2 hd2,
   fun s l hl => foldl_hold_state l s hl⟩

/-- C7 (witness): buy-then-sell from the initial state lands back on
position 0 / no last price, and a concrete run of two HOLDs is a no-op on
the position fields. -/
theorem c7_witness :
    ((execute_trade (execute_trade initState dBuy 0) dSell 1).position = 0 ∧
     (execute_trade (execute_trade initState dBuy 0) dSell 1).last_trade_price = none) ∧
    (([(dHold, 2), (dHold, 3)].foldl (fun st p => execute_trade st p.1 p.2)
        initState).position = initState.position ∧
     ([(dHold, 2), (dHold, 3)].foldl (fun st p => execute_trade st p.1 p.2)
        initState).last_trade_price = initState.last_trade_price) :=
  ⟨c7_buy_sell_roundtrip_and_hold_noop.1 initState dBuy dSell 0 1 rfl rfl rfl rfl,
   c7_buy_sell_roundtrip_and_hold_noop.2 initState [(dHold, 2), (dHold, 3)]
     (by with_unfolding_all decide)⟩

/-- C9: only the primary FLAT BUY branch rounds its levels to 2 decimals;
the FLAT advisory branch and all LONG branches return prices computed
directly from close (close, close·0.98, close·1.03, close·1.005,
close·0.995) with no rounding. -/
theorem c9_rounding_only_primary_branch (row : IndicatorRow) (ltp : Option ℚ) (l : ℚ) :
    (trend_up row = true → oLT row.RSI (some 70) = true →
      generate_daily_signal row 0 ltp = .ok
        { action := .buy
          price := round2 (pyMin (row.close * (995 / 1000)) row.S1)
          stop_loss := row.ATR.map
            (fun atr => round2 (pyMin (row.close * (995 / 1000)) row.S1 - 2 * atr))
          target := row.ATR.map
            (fun atr => round2 (pyMin (row.close * (995 / 1000)) row.S1 + 3 * atr))
          reason := none }) ∧
    ((trend_up row && oLT row.RSI (some 70)) = false →
      generate_daily_signal row 0 ltp = .ok
        { action := if trend_up row then .buy else .sell
          price := row.close
          stop_loss := some (row.close * (98 / 100))
          target := some (row.close * (103 / 100))
          reason := none }) ∧
    (l ≠ 0 →
      (3 / 100 < (row.close - l) / l ∨ oGT row.RSI (some 70) = true →
        generate_daily_signal row 1 (some l) = .ok
          { action := .sell, price := row.close * (1005 / 1000)
            stop_loss := none, target := none
            reason := some .takeProfitOverbought }) ∧
      (¬(3 / 100 < (row.close - l) / l ∨ oGT row.RSI (some 70) = true) →
        (row.close - l) / l < -(2 / 100) →
        generate_daily_signal row 1 (some l) = .ok
          { action := .sell, price := row.close * (995 / 1000)
            stop_loss := none, target := none
            reason := some .stopLossReason }) ∧
      (¬(3 / 100 < (row.close - l) / l ∨ oGT row.RSI (some 70) = true) →
        ¬((row.close - l) / l < -(2 / 100)) →
        generate_daily_signal row 1 (some l) = .ok
          { action := .hold, price := row.close
            stop_loss := none, target := none
            reason := some .holdPosition })) :=
  ⟨fun h1 h2 => gen_flat_primary row ltp h1 h2,
   fun h => gen_flat_else row ltp h,
   fun hl =>
     ⟨fun hc => gen_long_tp row 1 l one_ne_zero hl hc,
      fun h1 h2 => gen_long_sl row 1 l one_ne_zero hl h1 h2,
      fun h1 h2 => gen_long_hold row 1 l one_ne_zero hl h1 h2⟩⟩

/-- C9 (witness): at a non-trending FLAT row with close = 10 the advisory
decision carries the exact unrounded levels 10, 9.8, 10.3. -/
theorem c9_witness :
    (trend_up c9Row && oLT c9Row.RSI (some 70)) = false ∧
    generate_daily_signal c9Row 0 none = .ok
      { action := .sell, price := 10, stop_loss := some (49 / 5),
        target := some (103 / 10), reason := none } := by
  have hb : (trend_up c9Row && oLT c9Row.RSI (some 70)) = false := by
    with_unfolding_all decide
  refine ⟨hb, ?_⟩
  rw [(c9_rounding_only_primary_branch c9Row none 1).2.1 hb]
  with_unfolding_all decide

/-- C10 (counterexample): FLAT row with RSI missing but MA5 = 10.5 > MA20 =
10 > MA60 = 9.5 defined: trend_up is true, so the advisory decision is BUY,
not the SELL the claim asserts for every missing-field row. -/
theorem c10_counterexample :
    c10Row.RSI = none ∧
    (okOf (generate_daily_signal c10Row 0 none)).map Decision.action =
      some Action.buy ∧
    (okOf (generate_daily_signal c10Row 0 none)).map Decision.action ≠
      some Action.sell := by
  with_unfolding_all decide

/-- C10 (amended): in FLAT state the generator is total: it always returns a
decision; when any of MA5/MA20/MA60 is missing, every comparison involving
it is false, trend_up is false and the advisory SELL at close / close·0.98 /
close·1.03 is returned; when RSI is missing the RSI < 70 test fails and the
advisory decision is returned with action BUY exactly when trend_up holds. -/
theorem c10_amended (row : IndicatorRow) (ltp : Option ℚ) :
    (∃ d, generate_daily_signal row 0 ltp = .ok d) ∧
    ((row.MA5 = none ∨ row.MA20 = none ∨ row.MA60 = none) →
      generate_daily_signal row 0 ltp = .ok
        { action := .sell, price := row.close
          stop_loss := some (row.close * (98 / 100))
          target := some (row.close * (103 / 100)), reason := none }) ∧
    (row.RSI = none →
      generate_daily_signal row 0 ltp = .ok
        { action := if trend_up row then .buy else .sell
          price := row.close
          stop_loss := some (row.close * (98 / 100))
          target := some (row.close * (103 / 100)), reason := none }) := by
  refine ⟨gen_flat_ok row ltp, ?_, ?_⟩
  · intro h
    have htf : trend_up row = false := by
      rcases h with h | h | h <;> simp [trend_up, oGT, h]
    rw [gen_flat_else row ltp (by rw [htf]; rfl), htf]
    rfl
  · intro h
    exact gen_flat_else row ltp (by rw [h, oLT_none_left, Bool.and_false])

/-- C5: for every bar sequence of length ≥ 60 with strictly increasing
closes, the latest row's MA5, MA20, MA60 are defined with MA5 ≥ MA20 ≥ MA60
(in fact strictly), and the FLAT-state generator emits a BUY — whichever of
the two BUY forms the RSI < 70 side-condition selects. -/
theorem c5_increasing_closes_emit_buy (bars : List Bar) (h60 : 60 ≤ bars.length)
    (hmono : (bars.map Bar.close).Pairwise (· < ·)) :
    (∃ m5 m20 m60 : ℚ,
      (indicatorRowAt bars (bars.length - 1)).MA5 = some m5 ∧
      (indicatorRowAt bars (bars.length - 1)).MA20 = some m20 ∧
      (indicatorRowAt bars (bars.length - 1)).MA60 = some m60 ∧
      m20 ≤ m5 ∧ m60 ≤ m20) ∧
    (∃ d : Decision,
      generate_daily_signal (indicatorRowAt bars (bars.length - 1)) 0 none = .ok d ∧
      d.action = .buy) := by
  have hlen : (bars.map Bar.close).length = bars.length := List.length_map _ _
  have e5 := maAt_last (bars.map Bar.close) 5 (by norm_num) (by omega)
  have e20 := maAt_last (bars.map Bar.close) 20 (by norm_num) (by omega)
  have e60 := maAt_last (bars.map Bar.close) 60 (by norm_num) (by omega)
  rw [hlen] at e5 e20 e60
  have lt520 := drop_avg_lt (bars.map Bar.close) 5 20 hmono
    (by norm_num) (by norm_num) (by omega)
  have lt2060 := drop_avg_lt (bars.map Bar.close) 20 60 hmono
    (by norm_num) (by norm_num) (by omega)
  rw [hlen] at lt520 lt2060
  norm_cast at e5 e20 e60 lt520 lt2060
  have htrend : trend_up (indicatorRowAt bars (bars.length - 1)) = true := by
    simp [trend_up, oGT, row_MA5, row_MA20, row_MA60, e5, e20, e60, lt520, lt2060]
  constructor
  · exact ⟨_, _, _, by rw [row_MA5]; exact e5, by rw [row_MA20]; exact e20,
      by rw [row_MA60]; exact e60, le_of_lt lt520, le_of_lt lt2060⟩
  · cases hb : oLT (indicatorRowAt bars (bars.length - 1)).RSI (some 70) with
    | true => exact ⟨_, gen_flat_primary _ none htrend hb, rfl⟩
    | false =>
      refine ⟨_, gen_flat_else _ none (by rw [htrend, hb]; rfl), ?_⟩
      simp [htrend]

/-- C5 (witness): 60 bars with closes 1, 2, …, 60. -/
theorem c5_witness :
    60 ≤ c5Bars.length ∧ (c5Bars.map Bar.close).Pairwise (· < ·) ∧
    ((∃ m5 m20 m60 : ℚ,
      (indicatorRowAt c5Bars (c5Bars.length - 1)).MA5 = some m5 ∧
      (indicatorRowAt c5Bars (c5Bars.length - 1)).MA20 = some m20 ∧
      (indicatorRowAt c5Bars (c5Bars.length - 1)).MA60 = some m60 ∧
      m20 ≤ m5 ∧ m60 ≤ m20) ∧
    (∃ d : Decision,
      generate_daily_signal (indicatorRowAt c5Bars (c5Bars.length - 1)) 0 none = .ok d ∧
      d.action = .buy)) := by
  have h1 : 60 ≤ c5Bars.length := by with_unfolding_all decide
  have h2 : (c5Bars.map Bar.close).Pairwise (· < ·) := by with_unfolding_all decide
  exact ⟨h1, h2, c5_increasing_closes_emit_buy c5Bars h1 h2⟩

/-- C8 (counterexample): with only 3 bars (fewer than every rolling window)
the run surfaces no error at all: the latest row simply carries missing
MA5 (NaN) and the pipeline still returns a decision and mutates state. -/
theorem c8_counterexample :
    (indicatorRowAt c8Bars (c8Bars.length - 1)).MA5 = none ∧
    isOkE (run_daily_strategy_core c8Bars initState 0) = true := by
  with_unfolding_all decide

/-- C8 (amended): with fewer bars than an indicator's window the pipeline
raises nothing: the affected indicator cells of the latest row are missing
(MA5/MA20/MA60/ATR for history shorter than 5/20/60/14 bars; the ewm-based
RSI has no warm-up window in the code), and a run from a FLAT state still
returns a decision and mutates state. -/
theorem c8_amended (bars : List Bar) (s : TradingSystemState) (now : ℕ)
    (hne : bars ≠ []) (hp : s.position = 0) :
    (bars.length < 5 → (indicatorRowAt bars (bars.length - 1)).MA5 = none) ∧
    (bars.length < 20 → (indicatorRowAt bars (bars.length - 1)).MA20 = none) ∧
    (bars.length < 60 → (indicatorRowAt bars (bars.length - 1)).MA60 = none) ∧
    (bars.length < 14 → (indicatorRowAt bars (bars.length - 1)).ATR = none) ∧
    (∃ out, run_daily_strategy_core bars s now = .ok out) := by
  have h1 : 1 ≤ bars.length := List.length_pos.mpr hne
  refine ⟨?_, ?_, ?_, ?_, ?_⟩
  · intro hlt
    rw [row_MA5]
    unfold maAt
    rw [if_neg (by omega)]
  · intro hlt
    rw [row_MA20]
    unfold maAt
    rw [if_neg (by omega)]
  · intro hlt
    rw [row_MA60]
    unfold maAt
    rw [if_neg (by omega)]
  · intro hlt
    rw [row_ATR]
    unfold atrAt
    rw [if_neg (by omega)]
  · obtain ⟨d, hd⟩ := gen_flat_ok (indicatorRowAt bars (bars.length - 1)) s.last_trade_price
    refine ⟨(d, execute_trade s d now), ?_⟩
    unfold run_daily_strategy_core
    rw [calc_getLast? bars hne]
    show (match generate_daily_signal (indicatorRowAt bars (bars.length - 1))
        s.position s.last_trade_price with
      | .error e => Except.error e
      | .ok sig => Except.ok (sig, execute_trade s sig now)) =
      Except.ok (d, execute_trade s d now)
    rw [hp, hd]

/-- C8 (witness): the amended statement at the 3-bar input and the initial
state. -/
theorem c8_amended_witness :
    c8Bars ≠ [] ∧ initState.position = 0 ∧
    (indicatorRowAt c8Bars (c8Bars.length - 1)).MA5 = none ∧
    (∃ out, run_daily_strategy_core c8Bars initState 0 = .ok out) := by
  have h := c8_amended c8Bars initState 0 (by with_unfolding_all decide) rfl
  exact ⟨by with_unfolding_all decide, rfl,
    h.1 (by with_unfolding_all decide), h.2.2.2.2⟩

/-- C10 (witness): with MA5 missing and position FLAT the generator returns
the advisory SELL at 10 / 9.8 / 10.3. -/
theorem c10_amended_witness :
    (c10wRow.MA5 = none ∨ c10wRow.MA20 = none ∨ c10wRow.MA60 = none) ∧
    generate_daily_signal c10wRow 0 none = .ok
      { action := .sell, price := 10, stop_loss := some (49 / 5),
        target := some (103 / 10), reason := none } := by
  refine ⟨Or.inl rfl, ?_⟩
  rw [(c10_amended c10wRow none).2.1 (Or.inl rfl)]
  with_unfolding_all decide

end T0

